import Mathlib

/-!
Shallow embedding of the HMC5983 I2C magnetometer driver
(`flight/PiOS/Common/pios_hmc5983_i2c.c`) and proofs about it.

Machine integers are modelled as `Nat`/`Int` with explicit reduction
modulo 2^16 where the C code stores into 16-bit variables.  C `/` on
`int` truncates toward zero, which is `Int.tdiv`.
-/

/-- Register addresses of the device.  Modelled from the spec: the header
`pios_hmc5983.h` is not part of the source tree; spec section 6 gives the
register map `0x00` Control-A, `0x01` Control-B, `0x02` Mode, `0x03` X MSB,
`0x0A` ID-A. -/
def PIOS_HMC5983_CONFIG_REG_A : Nat := 0x00

/-- Control register B address (spec section 6). -/
def PIOS_HMC5983_CONFIG_REG_B : Nat := 0x01

/-- Mode register address (spec section 6). -/
def PIOS_HMC5983_MODE_REG : Nat := 0x02

/-- Start of the measurement burst (spec section 6). -/
def PIOS_HMC5983_DATAOUT_XMSB_REG : Nat := 0x03

/-- Identification register A (spec section 6). -/
def PIOS_HMC5983_DATAOUT_IDA_REG : Nat := 0x0A

/-- Device magic sentinel, from the source (`PIOS_HMC5983_DEV_MAGIC`). -/
def PIOS_HMC5983_DEV_MAGIC : Nat := 0x3d8efeed

/-- Gain register constants.  Modelled from the spec: the header defining
the `PIOS_HMC5983_GAIN_*` constants is not in the source tree; the spec
says the gain code occupies bits 7:5 of Control-Register-B and that the
configure step writes `gain_code << 5` there, while the source writes
`cfg->Gain` unshifted, so each constant is its 3-bit code shifted left
by five. -/
def PIOS_HMC5983_GAIN_0_88 : Nat := 0 <<< 5

/-- Gain code 1 (±1.3 Ga), pre-shifted into bits 7:5. -/
def PIOS_HMC5983_GAIN_1_3 : Nat := 1 <<< 5

/-- Gain code 2 (±1.9 Ga), pre-shifted into bits 7:5. -/
def PIOS_HMC5983_GAIN_1_9 : Nat := 2 <<< 5

/-- Gain code 3 (±2.5 Ga), pre-shifted into bits 7:5. -/
def PIOS_HMC5983_GAIN_2_5 : Nat := 3 <<< 5

/-- Gain code 4 (±4.0 Ga), pre-shifted into bits 7:5. -/
def PIOS_HMC5983_GAIN_4_0 : Nat := 4 <<< 5

/-- Gain code 5 (±4.7 Ga), pre-shifted into bits 7:5. -/
def PIOS_HMC5983_GAIN_4_7 : Nat := 5 <<< 5

/-- Gain code 6 (±5.6 Ga), pre-shifted into bits 7:5. -/
def PIOS_HMC5983_GAIN_5_6 : Nat := 6 <<< 5

/-- Gain code 7 (±8.1 Ga), pre-shifted into bits 7:5. -/
def PIOS_HMC5983_GAIN_8_1 : Nat := 7 <<< 5

/-- Sensitivity constants in LSB/Ga.  Modelled from the spec: defined in the
missing header, but the same table appears in the source file's register
documentation comment (gain 0.88 Ga → 1370 LSB/Ga, and so on). -/
def PIOS_HMC5983_Sensitivity_0_88Ga : Nat := 1370

/-- Sensitivity for ±1.3 Ga. -/
def PIOS_HMC5983_Sensitivity_1_3Ga : Nat := 1090

/-- Sensitivity for ±1.9 Ga. -/
def PIOS_HMC5983_Sensitivity_1_9Ga : Nat := 820

/-- Sensitivity for ±2.5 Ga. -/
def PIOS_HMC5983_Sensitivity_2_5Ga : Nat := 660

/-- Sensitivity for ±4.0 Ga. -/
def PIOS_HMC5983_Sensitivity_4_0Ga : Nat := 440

/-- Sensitivity for ±4.7 Ga. -/
def PIOS_HMC5983_Sensitivity_4_7Ga : Nat := 390

/-- Sensitivity for ±5.6 Ga. -/
def PIOS_HMC5983_Sensitivity_5_6Ga : Nat := 330

/-- Sensitivity for ±8.1 Ga. -/
def PIOS_HMC5983_Sensitivity_8_1Ga : Nat := 230

/-- The eight enumerated gain register values. -/
def hmc5983_gain_values : List Nat :=
  [PIOS_HMC5983_GAIN_0_88, PIOS_HMC5983_GAIN_1_3, PIOS_HMC5983_GAIN_1_9,
   PIOS_HMC5983_GAIN_2_5, PIOS_HMC5983_GAIN_4_0, PIOS_HMC5983_GAIN_4_7,
   PIOS_HMC5983_GAIN_5_6, PIOS_HMC5983_GAIN_8_1]

/-- Output data rate codes of Control-Register-A bits 4:2
(enum `pios_hmc5983_odr` in the missing header; the rate table is in the
source file's register documentation comment). -/
inductive pios_hmc5983_odr where
  | odr_0_75
  | odr_1_5
  | odr_3
  | odr_7_5
  | odr_15
  | odr_30
  | odr_75
  | odr_220
deriving DecidableEq

/-- Register value of an ODR code.  Modelled from the spec: the code sits in
bits 4:2 of Control-Register-A, so the header constant is the 3-bit code
shifted left by two. -/
def odrRegVal : pios_hmc5983_odr → Nat
  | .odr_0_75 => 0 <<< 2
  | .odr_1_5 => 1 <<< 2
  | .odr_3 => 2 <<< 2
  | .odr_7_5 => 3 <<< 2
  | .odr_15 => 4 <<< 2
  | .odr_30 => 5 <<< 2
  | .odr_75 => 6 <<< 2
  | .odr_220 => 7 <<< 2

/-- Nominal rate of an ODR code in Hz, as a rational (spec section 3). -/
def odrRate : pios_hmc5983_odr → ℚ
  | .odr_0_75 => 3/4
  | .odr_1_5 => 3/2
  | .odr_3 => 3
  | .odr_7_5 => 15/2
  | .odr_15 => 15
  | .odr_30 => 30
  | .odr_75 => 75
  | .odr_220 => 220

/-- The eight mounting orientations (enum `pios_hmc5983_orientation`). -/
inductive pios_hmc5983_orientation where
  | top_0deg
  | top_90deg
  | top_180deg
  | top_270deg
  | bottom_0deg
  | bottom_90deg
  | bottom_180deg
  | bottom_270deg
deriving DecidableEq

/-- Configuration record `struct pios_hmc5983_cfg`, restricted to the fields
the driver file reads.  `M_ODR` carries an enumerated ODR code; `Meas_Conf`,
`Gain` and `Mode` carry raw register byte values as in the C struct. -/
structure pios_hmc5983_cfg where
  M_ODR : pios_hmc5983_odr
  Meas_Conf : Nat
  Gain : Nat
  Mode : Nat
  Orientation : pios_hmc5983_orientation

/-- Interpret the low 16 bits of a natural number as a two's-complement
signed 16-bit value, i.e. the C cast `(int16_t)` of a `uint16_t`. -/
def toInt16 (n : Nat) : Int :=
  if n % 65536 < 32768 then ((n % 65536 : Nat) : Int)
  else ((n % 65536 : Nat) : Int) - 65536

/-- Store an `int` into an `int16_t`: reduce modulo 2^16 into
[-32768, 32767] (two's-complement wrap, the behavior of the targets this
driver runs on, and the wrap behavior the spec accepts). -/
def wrap16 (z : Int) : Int := (z + 32768) % 65536 - 32768

/-- Raw axis count reconstruction from the source line
`(int16_t) ((uint16_t)buffer_read[0] << 8) + buffer_read[1]`:
the MSB is shifted, cast to `int16_t` (sign extension), and the LSB is
added in `int` arithmetic. -/
def rawAxis (msb lsb : Nat) : Int := toInt16 (msb <<< 8) + lsb

/-- Milligauss conversion of one axis from the source line
`mag_x = ((int16_t)((uint16_t)b0 << 8) + b1) * 1000 / sensitivity;`:
32-bit multiply, C signed division (truncation toward zero), then the
store into the `int16_t` variable `mag_x`. -/
def magAxis (msb lsb sensitivity : Nat) : Int :=
  wrap16 (Int.tdiv (rawAxis msb lsb * 1000) sensitivity)

/-- Magnetometer sample record.  Modelled from the spec: the struct
`pios_sensor_mag_data` is defined outside the source tree; the spec says
its board-frame components are `int16` milligauss values. -/
structure pios_sensor_mag_data where
  x : Int
  y : Int
  z : Int
deriving DecidableEq

/-- Orientation switch of `PIOS_HMC5983_ReadMag`: map the converted device
axes `(mag_x, mag_y, mag_z)` to board frame.  Each component is stored into
an `int16` field, hence the `wrap16` on every store. -/
def orientMag (o : pios_hmc5983_orientation) (mag_x mag_y mag_z : Int) :
    pios_sensor_mag_data :=
  match o with
  | .top_0deg => ⟨wrap16 (-mag_x), wrap16 mag_y, wrap16 (-mag_z)⟩
  | .top_90deg => ⟨wrap16 (-mag_y), wrap16 (-mag_x), wrap16 (-mag_z)⟩
  | .top_180deg => ⟨wrap16 mag_x, wrap16 (-mag_y), wrap16 (-mag_z)⟩
  | .top_270deg => ⟨wrap16 mag_y, wrap16 mag_x, wrap16 (-mag_z)⟩
  | .bottom_0deg => ⟨wrap16 (-mag_x), wrap16 (-mag_y), wrap16 mag_z⟩
  | .bottom_90deg => ⟨wrap16 (-mag_y), wrap16 mag_x, wrap16 mag_z⟩
  | .bottom_180deg => ⟨wrap16 mag_x, wrap16 mag_y, wrap16 mag_z⟩
  | .bottom_270deg => ⟨wrap16 mag_y, wrap16 (-mag_x), wrap16 mag_z⟩

/-- Gain-to-sensitivity lookup, the `switch (dev->cfg->Gain)` of
`PIOS_HMC5983_Config_GetSensitivity`; any value outside the eight
enumerated cases reaches the trailing `return 0`. -/
def PIOS_HMC5983_Config_GetSensitivity (gain : Nat) : Nat :=
  if gain = PIOS_HMC5983_GAIN_0_88 then PIOS_HMC5983_Sensitivity_0_88Ga
  else if gain = PIOS_HMC5983_GAIN_1_3 then PIOS_HMC5983_Sensitivity_1_3Ga
  else if gain = PIOS_HMC5983_GAIN_1_9 then PIOS_HMC5983_Sensitivity_1_9Ga
  else if gain = PIOS_HMC5983_GAIN_2_5 then PIOS_HMC5983_Sensitivity_2_5Ga
  else if gain = PIOS_HMC5983_GAIN_4_0 then PIOS_HMC5983_Sensitivity_4_0Ga
  else if gain = PIOS_HMC5983_GAIN_4_7 then PIOS_HMC5983_Sensitivity_4_7Ga
  else if gain = PIOS_HMC5983_GAIN_5_6 then PIOS_HMC5983_Sensitivity_5_6Ga
  else if gain = PIOS_HMC5983_GAIN_8_1 then PIOS_HMC5983_Sensitivity_8_1Ga
  else 0

/-- The six magnetometer bytes delivered by the burst read, in wire order
`[X_MSB, X_LSB, Z_MSB, Z_LSB, Y_MSB, Y_LSB]` (the task reads with the
temperature pointer NULL, so only six bytes are read). -/
structure mag_buffer where
  b0 : Nat
  b1 : Nat
  b2 : Nat
  b3 : Nat
  b4 : Nat
  b5 : Nat

/-- Body of `PIOS_HMC5983_ReadMag` on the NULL-temperature path used by the
acquisition task.  `valid` is the outcome of `PIOS_HMC5983_Validate(dev)`;
`transfer` is `none` when the combined read-and-rearm I2C transfer fails and
otherwise carries the bytes read.  On any failure the function returns `-1`
and the caller's sample record (`prev`) is left unwritten.  The temperature
branch (floating point, unused by the task) is not modelled. -/
def PIOS_HMC5983_ReadMag (valid : Bool) (gain : Nat)
    (orientation : pios_hmc5983_orientation) (transfer : Option mag_buffer)
    (prev : pios_sensor_mag_data) : Int × pios_sensor_mag_data :=
  if valid = false then (-1, prev)
  else
    match transfer with
    | none => (-1, prev)
    | some buf =>
        let sensitivity := PIOS_HMC5983_Config_GetSensitivity gain
        let mag_x := magAxis buf.b0 buf.b1 sensitivity
        let mag_z := magAxis buf.b2 buf.b3 sensitivity
        let mag_y := magAxis buf.b4 buf.b5 sensitivity
        (0, orientMag orientation mag_x mag_y mag_z)

/-- One recorded bus register write: (register address, value). -/
def RegWrite : Type := Nat × Nat

/-- Body of `PIOS_HMC5983_Config`.  The three `PIOS_HMC5983_Write` calls are
modelled by the booleans `ok1 ok2 ok3` telling whether each successive I2C
write transaction succeeds; the function returns the C return value together
with the list of register writes issued (attempted) on the bus, in order.
As in the C, a failing write aborts the sequence with `-1`. -/
def PIOS_HMC5983_Config (cfg : pios_hmc5983_cfg) (ok1 ok2 ok3 : Bool) :
    Int × List RegWrite :=
  let w1 : RegWrite :=
    (PIOS_HMC5983_CONFIG_REG_A, 0x80 ||| odrRegVal cfg.M_ODR ||| cfg.Meas_Conf)
  if ok1 = false then (-1, [w1])
  else
    let w2 : RegWrite := (PIOS_HMC5983_CONFIG_REG_B, cfg.Gain)
    if ok2 = false then (-1, [w1, w2])
    else
      let w3 : RegWrite := (PIOS_HMC5983_MODE_REG, cfg.Mode)
      if ok3 = false then (-1, [w1, w2, w3])
      else (0, [w1, w2, w3])

/-- Truncation to `uint32` of `1000 / (num/den) + 0.99999`, evaluated in
exact rational arithmetic as the natural number
`(100000000 * den + 99999 * num) / (100000 * num)`.  The C computes this in
single-precision float; for the seven rates that occur the exact value is at
distance at least 1/3 from the nearest integer while the float rounding
error is below 10^-3, so the truncated results coincide. -/
def delayOfRate (num den : Nat) : Nat :=
  (100000000 * den + 99999 * num) / (100000 * num)

/-- Sample period in milliseconds computed by the `switch (dev->cfg->M_ODR)`
at the top of `PIOS_HMC5983_Task`.  Each case evaluates
`1000 / rate + 0.99999f` truncated to `uint32_t`; the switch has no case
for `PIOS_HMC5983_ODR_220`, which therefore falls into the shared
`case PIOS_HMC5983_ODR_75: default:` branch. -/
def sample_delay : pios_hmc5983_odr → Nat
  | .odr_0_75 => delayOfRate 3 4
  | .odr_1_5 => delayOfRate 3 2
  | .odr_3 => delayOfRate 3 1
  | .odr_7_5 => delayOfRate 15 2
  | .odr_15 => delayOfRate 15 1
  | .odr_30 => delayOfRate 30 1
  | .odr_75 => delayOfRate 75 1
  | .odr_220 => delayOfRate 75 1

/-- Body of `PIOS_HMC5983_Test`: `PIOS_HMC5983_ReadID` fills a 4-byte buffer
with three bytes read from the ID register plus a NUL; the test returns 0
exactly when those three bytes are `'H'`, `'4'`, `'3'`, and `-1` otherwise.
The arguments are the three bytes the read yields. -/
def PIOS_HMC5983_Test (id0 id1 id2 : Nat) : Int :=
  if id0 ≠ ('H').toNat ∨ id1 ≠ ('4').toNat ∨ id2 ≠ ('3').toNat then -1
  else 0

/-- Device record `struct hmc5983_dev`, restricted to the fields
`PIOS_HMC5983_Validate` and `PIOS_HMC5983_IRQHandler` inspect: the i2c bus
identifier and the magic sentinel. -/
structure hmc5983_dev where
  i2c_id : Nat
  magic : Nat

/-- Body of `PIOS_HMC5983_Validate`: `-1` for a NULL pointer, `-2` for a bad
magic sentinel, `-3` for a zero i2c id, `0` for a valid device. -/
def PIOS_HMC5983_Validate (dev : Option hmc5983_dev) : Int :=
  match dev with
  | none => -1
  | some d =>
      if d.magic ≠ PIOS_HMC5983_DEV_MAGIC then -2
      else if d.i2c_id = 0 then -3
      else 0

/-- Body of `PIOS_HMC5983_IRQHandler`.  `giveWoken` is the woken flag that
`PIOS_Semaphore_Give_FromISR` reports through its out-parameter.  The result
is the returned boolean paired with the number of semaphore gives issued. -/
def PIOS_HMC5983_IRQHandler (dev : Option hmc5983_dev) (giveWoken : Bool) :
    Bool × Nat :=
  if PIOS_HMC5983_Validate dev ≠ 0 then (false, 0)
  else (giveWoken, 1)

/-- The bounded output queue of capacity `PIOS_HMC5983_MAX_DOWNSAMPLE = 1`:
`PIOS_Queue_Send(queue, &mag_data, 0)` with zero timeout stores the sample
if the single slot is free and otherwise drops the new sample. -/
def queueSend (q : Option pios_sensor_mag_data) (s : pios_sensor_mag_data) :
    Option pios_sensor_mag_data :=
  match q with
  | none => some s
  | some old => some old

/-- One steady-state iteration of the `while (1)` loop of
`PIOS_HMC5983_Task`: call `PIOS_HMC5983_ReadMag` and enqueue the sample
exactly when it returned 0.  The function is total and returns the queue
for the next iteration: a failed transfer changes nothing and the loop
continues.  (The preceding sleep / semaphore-take is timing, not data, and
is not modelled.) -/
def PIOS_HMC5983_Task_step (gain : Nat)
    (orientation : pios_hmc5983_orientation) (transfer : Option mag_buffer)
    (prev : pios_sensor_mag_data) (q : Option pios_sensor_mag_data) :
    Option pios_sensor_mag_data :=
  let r := PIOS_HMC5983_ReadMag true gain orientation transfer prev
  if r.1 = 0 then queueSend q r.2 else q

/-! ## Helper lemmas -/

/-- Values already in int16 range are unchanged by the int16 store. -/
theorem wrap16_eq_self {z : Int} (h1 : -32768 ≤ z) (h2 : z < 32768) :
    wrap16 z = z := by
  unfold wrap16
  omega

/-- Output range of the int16 store. -/
theorem wrap16_mem_range (z : Int) : -32768 ≤ wrap16 z ∧ wrap16 z < 32768 := by
  unfold wrap16
  omega

/-- Big-endian recombination: oring a shifted MSB with a byte LSB is
addition. -/
theorem shift_or_byte (msb lsb : Nat) (hl : lsb < 256) :
    msb <<< 8 ||| lsb = msb * 256 + lsb := by
  rw [Nat.shiftLeft_eq]
  have h : (2 : Nat) ^ 8 * msb + lsb = 2 ^ 8 * msb ||| lsb :=
    Nat.mul_add_lt_is_or (by norm_num [hl]) msb
  calc msb * 2 ^ 8 ||| lsb = 2 ^ 8 * msb ||| lsb := by rw [Nat.mul_comm]
    _ = 2 ^ 8 * msb + lsb := h.symm
    _ = msb * 256 + lsb := by norm_num [Nat.mul_comm]

/-! ## Claim C5 -/

/-- Claim C5: for every pair of bytes (MSB, LSB) from the burst-read
buffer, the reconstructed raw axis value equals the sign-extended 16-bit
value `(MSB <<< 8) ||| LSB`, i.e. the big-endian byte pair interpreted as a
two's-complement int16. -/
theorem claim_C5_byte_order (msb lsb : Nat) (hm : msb < 256) (hl : lsb < 256) :
    rawAxis msb lsb = toInt16 (msb <<< 8 ||| lsb) := by
  rw [shift_or_byte msb lsb hl]
  unfold rawAxis toInt16
  rw [Nat.shiftLeft_eq]
  norm_num
  split_ifs <;> omega

/-- Claim C5 witness: concrete evaluation at MSB = 0xFF, LSB = 0x00, whose
sign-extended value is -256. -/
theorem claim_C5_byte_order_witness :
    rawAxis 0xFF 0x00 = toInt16 (0xFF <<< 8 ||| 0x00) ∧ rawAxis 0xFF 0x00 = -256 :=
  ⟨claim_C5_byte_order 0xFF 0x00 (by decide) (by decide), by decide⟩

/-! ## Claim C7 -/

/-- Claim C7: the self test returns 0 if and only if the three
identification bytes read from the ID register are `'H'`, `'4'`, `'3'`;
in particular it returns 0 on `H43` and `-1` on `H42`. -/
theorem claim_C7_self_test (id0 id1 id2 : Nat) :
    (PIOS_HMC5983_Test id0 id1 id2 = 0 ↔
      id0 = ('H').toNat ∧ id1 = ('4').toNat ∧ id2 = ('3').toNat) ∧
    PIOS_HMC5983_Test ('H').toNat ('4').toNat ('3').toNat = 0 ∧
    PIOS_HMC5983_Test ('H').toNat ('4').toNat ('2').toNat = -1 := by
  refine ⟨?_, by decide, by decide⟩
  unfold PIOS_HMC5983_Test
  split_ifs with h
  · constructor
    · intro hc
      exact absurd hc (by decide)
    · intro hc
      exact absurd hc (by tauto)
  · push_neg at h
    exact ⟨fun _ => ⟨h.1, h.2⟩, fun _ => rfl⟩

/-! ## Claim C9 -/

/-- Claim C9: a NULL device record or one with a wrong magic sentinel makes
the IRQ handler return `false` (not woken) without giving the data-ready
semaphore; a valid device gives the semaphore exactly once and the handler
returns the woken flag that the give reported. -/
theorem claim_C9_irq_handler (dev : Option hmc5983_dev) (giveWoken : Bool) :
    ((dev = none ∨ ∃ d, dev = some d ∧ d.magic ≠ PIOS_HMC5983_DEV_MAGIC) →
      PIOS_HMC5983_IRQHandler dev giveWoken = (false, 0)) ∧
    (PIOS_HMC5983_Validate dev = 0 →
      PIOS_HMC5983_IRQHandler dev giveWoken = (giveWoken, 1)) := by
  constructor
  · intro h
    unfold PIOS_HMC5983_IRQHandler PIOS_HMC5983_Validate
    rcases h with h | ⟨d, hd, hm⟩
    · subst h
      simp
    · subst hd
      simp [hm]
  · intro h
    unfold PIOS_HMC5983_IRQHandler
    simp [h]

/-- Claim C9 witness: a device with a corrupted magic sentinel is rejected,
and a valid device record passes the woken flag through. -/
theorem claim_C9_irq_handler_witness :
    PIOS_HMC5983_IRQHandler (some ⟨1, 0⟩) true = (false, 0) ∧
    PIOS_HMC5983_IRQHandler (some ⟨1, PIOS_HMC5983_DEV_MAGIC⟩) true = (true, 1) :=
  ⟨(claim_C9_irq_handler (some ⟨1, 0⟩) true).1
      (Or.inr ⟨⟨1, 0⟩, rfl, by decide⟩),
   (claim_C9_irq_handler (some ⟨1, PIOS_HMC5983_DEV_MAGIC⟩) true).2 (by decide)⟩

/-! ## Claim C2 -/

/-- Claim C2: configure issues register writes in the order
Control-Register-A, Control-Register-B, Mode-Register with values
`0x80 ||| odr ||| bias`, the gain code shifted into bits 7:5, and the mode
code; it succeeds if and only if all three writes succeed, a successful run
issues exactly those three writes, and nothing is issued after the first
failing write. -/
theorem claim_C2_configure (cfg : pios_hmc5983_cfg) (c : Nat)
    (hg : cfg.Gain = c <<< 5) (ok1 ok2 ok3 : Bool) :
    ((PIOS_HMC5983_Config cfg ok1 ok2 ok3).1 = 0 ↔
      ok1 = true ∧ ok2 = true ∧ ok3 = true) ∧
    ((PIOS_HMC5983_Config cfg ok1 ok2 ok3).1 = 0 →
      (PIOS_HMC5983_Config cfg ok1 ok2 ok3).2 =
        [(PIOS_HMC5983_CONFIG_REG_A,
           0x80 ||| odrRegVal cfg.M_ODR ||| cfg.Meas_Conf),
         (PIOS_HMC5983_CONFIG_REG_B, c <<< 5),
         (PIOS_HMC5983_MODE_REG, cfg.Mode)]) ∧
    (ok1 = false →
      (PIOS_HMC5983_Config cfg ok1 ok2 ok3).2 =
        [(PIOS_HMC5983_CONFIG_REG_A,
           0x80 ||| odrRegVal cfg.M_ODR ||| cfg.Meas_Conf)]) ∧
    (ok1 = true → ok2 = false →
      (PIOS_HMC5983_Config cfg ok1 ok2 ok3).2 =
        [(PIOS_HMC5983_CONFIG_REG_A,
           0x80 ||| odrRegVal cfg.M_ODR ||| cfg.Meas_Conf),
         (PIOS_HMC5983_CONFIG_REG_B, c <<< 5)]) := by
  cases ok1 <;> cases ok2 <;> cases ok3 <;>
    simp [PIOS_HMC5983_Config, hg]

/-- Claim C2 witness: a fully successful configure of a 15 Hz, normal-bias,
gain 1.3 Ga, continuous-mode record issues the three writes
`(0, 0x90), (1, 0x20), (2, 0x00)` and returns 0. -/
theorem claim_C2_configure_witness :
    (PIOS_HMC5983_Config
        (pios_hmc5983_cfg.mk .odr_15 0 PIOS_HMC5983_GAIN_1_3 0 .top_0deg)
        true true true).1 = 0 ∧
      (PIOS_HMC5983_Config
        (pios_hmc5983_cfg.mk .odr_15 0 PIOS_HMC5983_GAIN_1_3 0 .top_0deg)
        true true true).2 =
        [(PIOS_HMC5983_CONFIG_REG_A, 0x90),
         (PIOS_HMC5983_CONFIG_REG_B, 0x20),
         (PIOS_HMC5983_MODE_REG, 0)] := by
  have h := claim_C2_configure
    (pios_hmc5983_cfg.mk .odr_15 0 PIOS_HMC5983_GAIN_1_3 0 .top_0deg)
    1 (by decide) true true true
  refine ⟨(h.1.mpr ⟨rfl, rfl, rfl⟩), ?_⟩
  have h2 := h.2.1 (h.1.mpr ⟨rfl, rfl, rfl⟩)
  rw [h2]
  decide

/-! ## Claim C3 -/

/-- Claim C3 counterexample: the ODR switch in the task has no case for the
220 Hz code, which falls into the shared `case ODR_75: default:` branch, so
the computed sample delay is 14 ms and not `ceil(1000/220) = 5` ms. -/
theorem claim_C3_counterexample :
    ¬ ((sample_delay .odr_220 : ℤ) = ⌈(1000 : ℚ) / odrRate .odr_220⌉) := by
  have h1 : sample_delay .odr_220 = 14 := by decide
  have h2 : ⌈(1000 : ℚ) / odrRate .odr_220⌉ = 5 := by
    rw [Int.ceil_eq_iff]
    norm_num [odrRate]
  rw [h1, h2]
  decide

/-- Claim C3 (amended): for the seven output data rates the task's switch
enumerates (0.75 to 75 Hz), the polled-mode sample delay equals
`ceil(1000 / odr_hz)` milliseconds — in particular 67 ms at 15 Hz — while
the 220 Hz code falls into the default branch and yields the 75 Hz delay of
14 ms rather than `ceil(1000/220) = 5` ms. -/
theorem claim_C3_sample_delay :
    (∀ o : pios_hmc5983_odr, o ≠ .odr_220 →
      (sample_delay o : ℤ) = ⌈(1000 : ℚ) / odrRate o⌉) ∧
    sample_delay .odr_15 = 67 ∧
    sample_delay .odr_220 = 14 := by
  refine ⟨?_, by decide, by decide⟩
  intro o ho
  cases o with
  | odr_0_75 =>
      have h1 : sample_delay .odr_0_75 = 1334 := by decide
      have h2 : ⌈(1000 : ℚ) / odrRate .odr_0_75⌉ = 1334 := by
        rw [Int.ceil_eq_iff]
        norm_num [odrRate]
      rw [h1, h2]
      norm_num
  | odr_1_5 =>
      have h1 : sample_delay .odr_1_5 = 667 := by decide
      have h2 : ⌈(1000 : ℚ) / odrRate .odr_1_5⌉ = 667 := by
        rw [Int.ceil_eq_iff]
        norm_num [odrRate]
      rw [h1, h2]
      norm_num
  | odr_3 =>
      have h1 : sample_delay .odr_3 = 334 := by decide
      have h2 : ⌈(1000 : ℚ) / odrRate .odr_3⌉ = 334 := by
        rw [Int.ceil_eq_iff]
        norm_num [odrRate]
      rw [h1, h2]
      norm_num
  | odr_7_5 =>
      have h1 : sample_delay .odr_7_5 = 134 := by decide
      have h2 : ⌈(1000 : ℚ) / odrRate .odr_7_5⌉ = 134 := by
        rw [Int.ceil_eq_iff]
        norm_num [odrRate]
      rw [h1, h2]
      norm_num
  | odr_15 =>
      have h1 : sample_delay .odr_15 = 67 := by decide
      have h2 : ⌈(1000 : ℚ) / odrRate .odr_15⌉ = 67 := by
        rw [Int.ceil_eq_iff]
        norm_num [odrRate]
      rw [h1, h2]
      norm_num
  | odr_30 =>
      have h1 : sample_delay .odr_30 = 34 := by decide
      have h2 : ⌈(1000 : ℚ) / odrRate .odr_30⌉ = 34 := by
        rw [Int.ceil_eq_iff]
        norm_num [odrRate]
      rw [h1, h2]
      norm_num
  | odr_75 =>
      have h1 : sample_delay .odr_75 = 14 := by decide
      have h2 : ⌈(1000 : ℚ) / odrRate .odr_75⌉ = 14 := by
        rw [Int.ceil_eq_iff]
        norm_num [odrRate]
      rw [h1, h2]
      norm_num
  | odr_220 => exact absurd rfl ho

/-- Claim C3 witness: the amended statement applied at the 15 Hz code gives
the 67 ms delay of scenario S5. -/
theorem claim_C3_sample_delay_witness :
    (sample_delay .odr_15 : ℤ) = ⌈(1000 : ℚ) / odrRate .odr_15⌉ :=
  claim_C3_sample_delay.1 .odr_15 (by decide)

/-! ## Claim C1 -/

/-- For device-range raw counts the scaled quotient fits in an int16, so the
store into the `int16_t` variable does not wrap. -/
theorem magAxis_eq_tdiv (msb lsb S : Nat) (hS : 230 ≤ S)
    (h1 : -2048 ≤ rawAxis msb lsb) (h2 : rawAxis msb lsb ≤ 2047) :
    magAxis msb lsb S = Int.tdiv (rawAxis msb lsb * 1000) S := by
  unfold magAxis
  have habs : (rawAxis msb lsb * 1000).natAbs ≤ 2048000 := by
    rw [Int.natAbs_mul]
    have hr : (rawAxis msb lsb).natAbs ≤ 2048 := by omega
    calc (rawAxis msb lsb).natAbs * (1000 : Int).natAbs
        ≤ 2048 * (1000 : Int).natAbs := Nat.mul_le_mul_right _ hr
      _ = 2048000 := by norm_num
  have hdiv : (Int.tdiv (rawAxis msb lsb * 1000) S).natAbs ≤ 8904 := by
    rw [Int.natAbs_tdiv]
    have hS' : ((S : Int)).natAbs = S := Int.natAbs_ofNat S
    rw [hS']
    calc (rawAxis msb lsb * 1000).natAbs.div S
        = (rawAxis msb lsb * 1000).natAbs / S := rfl
      _ ≤ 2048000 / S := Nat.div_le_div_right habs
      _ ≤ 2048000 / 230 := Nat.div_le_div_left hS (by norm_num)
      _ = 8904 := by norm_num
  apply wrap16_eq_self <;> omega

/-- Claim C1 counterexample: with gain 1.9 Ga (sensitivity 820) and the raw
big-endian bytes `0x80 0x00` (raw = -32768, a representable 16-bit count
outside the device's ±2048 output range), the quotient -39960 overflows the
`int16_t` store, so the converted value (25576 after wrap) is not
`raw * 1000 / S` truncated toward zero. -/
theorem claim_C1_counterexample :
    magAxis 0x80 0x00 (PIOS_HMC5983_Config_GetSensitivity PIOS_HMC5983_GAIN_1_9) ≠
      Int.tdiv (rawAxis 0x80 0x00 * 1000) 820 := by
  decide

/-- Claim C1 (amended): for every gain code of the fixed table
{0.88→1370, 1.3→1090, 1.9→820, 2.5→660, 4.0→440, 4.7→390, 5.6→330, 8.1→230}
and every raw count within the device's output range -2048..2047 (which
contains the required points -2048, -1, 0, 1, 2047), the converted axis
value equals `raw * 1000 / S` truncated toward zero, the product being
taken in unbounded (hence at least 32-bit) signed arithmetic; for raw
16-bit counts beyond that range the final int16 store may wrap. -/
theorem claim_C1_sensitivity_conversion (g S : Nat)
    (hmem : (g, S) ∈ [(PIOS_HMC5983_GAIN_0_88, 1370), (PIOS_HMC5983_GAIN_1_3, 1090),
      (PIOS_HMC5983_GAIN_1_9, 820), (PIOS_HMC5983_GAIN_2_5, 660),
      (PIOS_HMC5983_GAIN_4_0, 440), (PIOS_HMC5983_GAIN_4_7, 390),
      (PIOS_HMC5983_GAIN_5_6, 330), (PIOS_HMC5983_GAIN_8_1, 230)])
    (msb lsb : Nat)
    (h1 : -2048 ≤ rawAxis msb lsb) (h2 : rawAxis msb lsb ≤ 2047) :
    PIOS_HMC5983_Config_GetSensitivity g = S ∧
    magAxis msb lsb (PIOS_HMC5983_Config_GetSensitivity g) =
      Int.tdiv (rawAxis msb lsb * 1000) S := by
  have hgs : PIOS_HMC5983_Config_GetSensitivity g = S ∧ 230 ≤ S := by
    simp only [List.mem_cons, List.not_mem_nil, or_false] at hmem
    rcases hmem with h | h | h | h | h | h | h | h <;>
      · rw [Prod.mk.injEq] at h
        rcases h with ⟨hg, hS⟩
        subst hg
        subst hS
        exact ⟨by decide, by decide⟩
  refine ⟨hgs.1, ?_⟩
  rw [hgs.1]
  exact magAxis_eq_tdiv msb lsb S hgs.2 h1 h2

/-- Claim C1 witness: gain 1.3 Ga, bytes `0x07 0xFF` (raw = 2047) convert to
`2047000 / 1090` truncated toward zero. -/
theorem claim_C1_sensitivity_conversion_witness :
    PIOS_HMC5983_Config_GetSensitivity PIOS_HMC5983_GAIN_1_3 = 1090 ∧
    magAxis 0x07 0xFF (PIOS_HMC5983_Config_GetSensitivity PIOS_HMC5983_GAIN_1_3) =
      Int.tdiv (rawAxis 0x07 0xFF * 1000) 1090 :=
  claim_C1_sensitivity_conversion PIOS_HMC5983_GAIN_1_3 1090 (by decide)
    0x07 0xFF (by decide) (by decide)

/-! ## Claim C4 -/

/-- Claim C4 counterexample: at the device-axis triple
`(rx, rz, ry) = (-32768, 0, 0)` the TOP_0 transform does not produce
`(-rx, +ry, -rz) = (32768, 0, 0)`: negating `INT16_MIN` wraps in the int16
sample field, leaving -32768. -/
theorem claim_C4_counterexample :
    orientMag .top_0deg (-32768) 0 0 ≠ ⟨-(-32768 : Int), (0 : Int), -(0 : Int)⟩ := by
  decide

/-- Claim C4 (amended): for every orientation and every device-axis triple
whose components lie in -32767..32767 (all int16 values except
`INT16_MIN = -32768`, where negation wraps), the transform produces the
board-frame triple of the 8-entry table: TOP_0 ↦ (-rx, +ry, -rz),
TOP_90 ↦ (-ry, -rx, -rz), TOP_180 ↦ (+rx, -ry, -rz),
TOP_270 ↦ (+ry, +rx, -rz), BOTTOM_0 ↦ (-rx, -ry, +rz),
BOTTOM_90 ↦ (-ry, +rx, +rz), BOTTOM_180 ↦ (+rx, +ry, +rz),
BOTTOM_270 ↦ (+ry, -rx, +rz). -/
theorem claim_C4_orientation (rx ry rz : Int)
    (hx1 : -32767 ≤ rx) (hx2 : rx ≤ 32767)
    (hy1 : -32767 ≤ ry) (hy2 : ry ≤ 32767)
    (hz1 : -32767 ≤ rz) (hz2 : rz ≤ 32767) :
    orientMag .top_0deg rx ry rz = ⟨-rx, ry, -rz⟩ ∧
    orientMag .top_90deg rx ry rz = ⟨-ry, -rx, -rz⟩ ∧
    orientMag .top_180deg rx ry rz = ⟨rx, -ry, -rz⟩ ∧
    orientMag .top_270deg rx ry rz = ⟨ry, rx, -rz⟩ ∧
    orientMag .bottom_0deg rx ry rz = ⟨-rx, -ry, rz⟩ ∧
    orientMag .bottom_90deg rx ry rz = ⟨-ry, rx, rz⟩ ∧
    orientMag .bottom_180deg rx ry rz = ⟨rx, ry, rz⟩ ∧
    orientMag .bottom_270deg rx ry rz = ⟨ry, -rx, rz⟩ := by
  have hpx : wrap16 rx = rx := wrap16_eq_self (by omega) (by omega)
  have hpy : wrap16 ry = ry := wrap16_eq_self (by omega) (by omega)
  have hpz : wrap16 rz = rz := wrap16_eq_self (by omega) (by omega)
  have hnx : wrap16 (-rx) = -rx := wrap16_eq_self (by omega) (by omega)
  have hny : wrap16 (-ry) = -ry := wrap16_eq_self (by omega) (by omega)
  have hnz : wrap16 (-rz) = -rz := wrap16_eq_self (by omega) (by omega)
  refine ⟨?_, ?_, ?_, ?_, ?_, ?_, ?_, ?_⟩ <;>
    simp [orientMag, hpx, hpy, hpz, hnx, hny, hnz]

/-- Claim C4 witness: scenario S4, raw `(rx, rz, ry) = (100, 200, 300)` with
BOTTOM_270 yields the board-frame triple `(300, -100, 200)`. -/
theorem claim_C4_orientation_witness :
    orientMag .bottom_270deg 100 300 200 =
      ⟨(300 : Int), (-100 : Int), (200 : Int)⟩ := by
  have h := claim_C4_orientation 100 300 200 (by decide) (by decide)
    (by decide) (by decide) (by decide) (by decide)
  have hb := h.2.2.2.2.2.2.2
  rw [hb]

/-! ## Claim C6 -/

/-- Claim C6: the orientation transforms form an involution family on int16
triples: TOP_0 preserves every component's magnitude; TOP_180 applied twice
is the identity; and every component of every transform's output is plus or
minus some component of the input (componentwise magnitude preservation up
to sign), with the 16-bit wrap on negation of `INT16_MIN` accepted. -/
theorem claim_C6_involution_family (x y z : Int)
    (hx1 : -32768 ≤ x) (hx2 : x ≤ 32767)
    (hy1 : -32768 ≤ y) (hy2 : y ≤ 32767)
    (hz1 : -32768 ≤ z) (hz2 : z ≤ 32767) :
    ((orientMag .top_0deg x y z).x.natAbs = x.natAbs ∧
     (orientMag .top_0deg x y z).y.natAbs = y.natAbs ∧
     (orientMag .top_0deg x y z).z.natAbs = z.natAbs) ∧
    (orientMag .top_180deg (orientMag .top_180deg x y z).x
      (orientMag .top_180deg x y z).y (orientMag .top_180deg x y z).z =
      ⟨x, y, z⟩) ∧
    (∀ o : pios_hmc5983_orientation,
      ((orientMag o x y z).x.natAbs = x.natAbs ∨
       (orientMag o x y z).x.natAbs = y.natAbs ∨
       (orientMag o x y z).x.natAbs = z.natAbs) ∧
      ((orientMag o x y z).y.natAbs = x.natAbs ∨
       (orientMag o x y z).y.natAbs = y.natAbs ∨
       (orientMag o x y z).y.natAbs = z.natAbs) ∧
      ((orientMag o x y z).z.natAbs = x.natAbs ∨
       (orientMag o x y z).z.natAbs = y.natAbs ∨
       (orientMag o x y z).z.natAbs = z.natAbs)) := by
  have px : wrap16 x = x := wrap16_eq_self (by omega) (by omega)
  have py : wrap16 y = y := wrap16_eq_self (by omega) (by omega)
  have pz : wrap16 z = z := wrap16_eq_self (by omega) (by omega)
  have ax : (wrap16 (-x)).natAbs = x.natAbs := by unfold wrap16; omega
  have ay : (wrap16 (-y)).natAbs = y.natAbs := by unfold wrap16; omega
  have az : (wrap16 (-z)).natAbs = z.natAbs := by unfold wrap16; omega
  have ivy : wrap16 (-(wrap16 (-y))) = y := by unfold wrap16; omega
  have ivz : wrap16 (-(wrap16 (-z))) = z := by unfold wrap16; omega
  refine ⟨⟨?_, ?_, ?_⟩, ?_, ?_⟩
  · simp [orientMag, ax]
  · simp [orientMag, py]
  · simp [orientMag, az]
  · simp [orientMag, px, ivy, ivz]
  · intro o
    cases o <;>
      simp [orientMag, px, py, pz, ax, ay, az]

/-- Claim C6 witness: concrete triple (-32768, 5, -7) containing
`INT16_MIN`: TOP_0 preserves the first component's magnitude and a double
TOP_180 is the identity. -/
theorem claim_C6_involution_family_witness :
    (orientMag .top_0deg (-32768) 5 (-7)).x.natAbs = (-32768 : Int).natAbs ∧
    orientMag .top_180deg (orientMag .top_180deg (-32768) 5 (-7)).x
      (orientMag .top_180deg (-32768) 5 (-7)).y
      (orientMag .top_180deg (-32768) 5 (-7)).z =
      ⟨(-32768 : Int), (5 : Int), (-7 : Int)⟩ := by
  have h := claim_C6_involution_family (-32768) 5 (-7) (by decide) (by decide)
    (by decide) (by decide) (by decide) (by decide)
  exact ⟨h.1.1, h.2.1⟩

/-! ## Claim C8 -/

/-- Claim C8: in an iteration whose combined read-and-rearm transfer fails,
the magnetometer read returns the nonzero error -1, the caller's sample
record is left unwritten, and the task step leaves the queue unchanged (the
step is a total function, so the loop neither terminates nor propagates the
error); an iteration whose transfer succeeds returns 0 and enqueues the
converted sample normally. -/
theorem claim_C8_failure_absorption (gain : Nat)
    (o : pios_hmc5983_orientation) (buf : mag_buffer)
    (prev : pios_sensor_mag_data) (q : Option pios_sensor_mag_data) :
    (PIOS_HMC5983_ReadMag true gain o none prev).1 = -1 ∧
    (PIOS_HMC5983_ReadMag true gain o none prev).2 = prev ∧
    PIOS_HMC5983_Task_step gain o none prev q = q ∧
    (PIOS_HMC5983_ReadMag true gain o (some buf) prev).1 = 0 ∧
    PIOS_HMC5983_Task_step gain o (some buf) prev none =
      some (PIOS_HMC5983_ReadMag true gain o (some buf) prev).2 := by
  refine ⟨rfl, rfl, ?_, rfl, ?_⟩
  · simp [PIOS_HMC5983_Task_step, PIOS_HMC5983_ReadMag]
  · simp [PIOS_HMC5983_Task_step, PIOS_HMC5983_ReadMag, queueSend]

/-! ## Claim C10 -/

/-- Claim C10: for every configuration whose Gain field is one of the eight
enumerated register values, the sensitivity lookup returns the nonzero
sensitivity of that table entry, so the three divisions in the
magnetometer read divide by a nonzero divisor; for any Gain value outside
the enumeration the lookup returns 0 and the read still divides by it
unguarded (the conversion divides by the lookup result unconditionally). -/
theorem claim_C10_sensitivity_guard :
    (∀ g ∈ hmc5983_gain_values, PIOS_HMC5983_Config_GetSensitivity g ≠ 0) ∧
    (∀ g : Nat, g ∉ hmc5983_gain_values →
      PIOS_HMC5983_Config_GetSensitivity g = 0) ∧
    (∀ (g : Nat) (o : pios_hmc5983_orientation) (buf : mag_buffer)
        (prev : pios_sensor_mag_data),
      PIOS_HMC5983_ReadMag true g o (some buf) prev =
        (0, orientMag o
          (magAxis buf.b0 buf.b1 (PIOS_HMC5983_Config_GetSensitivity g))
          (magAxis buf.b4 buf.b5 (PIOS_HMC5983_Config_GetSensitivity g))
          (magAxis buf.b2 buf.b3 (PIOS_HMC5983_Config_GetSensitivity g)))) := by
  refine ⟨?_, ?_, ?_⟩
  · intro g hg
    fin_cases hg <;> decide
  · intro g hg
    simp only [hmc5983_gain_values, List.mem_cons, List.not_mem_nil,
      not_or, or_false] at hg
    obtain ⟨h1, h2, h3, h4, h5, h6, h7, h8⟩ := hg
    simp [PIOS_HMC5983_Config_GetSensitivity, h1, h2, h3, h4, h5, h6, h7, h8]
  · intro g o buf prev
    simp [PIOS_HMC5983_ReadMag]

/-- Claim C10 witness: the 4.7 Ga gain value yields the nonzero
sensitivity 390, while the out-of-enumeration value 1 yields 0. -/
theorem claim_C10_sensitivity_guard_witness :
    PIOS_HMC5983_Config_GetSensitivity PIOS_HMC5983_GAIN_4_7 ≠ 0 ∧
    PIOS_HMC5983_Config_GetSensitivity 1 = 0 :=
  ⟨claim_C10_sensitivity_guard.1 PIOS_HMC5983_GAIN_4_7 (by decide),
   claim_C10_sensitivity_guard.2.1 1 (by decide)⟩
